import Mathlib

/-!
Shallow embedding of the CloudNap cluster lifecycle core: the status
aggregator, the manual request signer, the TTL status cache, the cluster
start/stop operations and the scheduler job registration, together with
proofs of the specification claims about them.

Sources embedded:
- app/services/huawei_cloud_service.py (signer, aggregator, cluster ops)
- app/services/cache_service.py (TTL cache)
- app/services/scheduler_service.py (job registration)
- app/config.py (configuration records)
-/

namespace CloudNap

/-! ## Configuration records (app/config.py) -/

/-- Embeds the dataclass HuaweiCloudConfig of app/config.py. -/
structure HuaweiCloudConfig where
  region : String
  access_key : String
  secret_key : String
  project_id : String

/-- Embeds the dataclass ClusterConfig of app/config.py. `schedule` is the
dict mapping the keys "wake_up" / "shutdown" to cron expressions, embedded
as an association list. -/
structure ClusterConfig where
  name : String
  instance_ids : List String
  region : String
  description : String
  tags : List String
  schedule : List (String × String)
  enabled : Bool

/-! ## Status aggregator (huawei_cloud_service.py, _determine_cluster_status) -/

/-- The transitional state vocabulary of _determine_cluster_status. -/
def transitional_states : List String :=
  ["BUILD", "REBOOT", "HARD_REBOOT", "MIGRATING", "RESIZE",
   "VERIFY_RESIZE", "REVERT_RESIZE", "PASSWORD", "REBUILD",
   "RESCUE", "UNRESCUE"]

/-- Embeds _determine_cluster_status: the 10-rule first-match-wins
precedence evaluation over the raw per-instance status strings, exactly as
the Python code writes it (note that the final three rules compare against
the two literal spellings "ACTIVE"/"active" resp. "SHUTOFF"/"shutoff"
only). -/
def determine_cluster_status (instance_statuses : List String) : String :=
  if instance_statuses.isEmpty then "unknown"
  else if instance_statuses.any (fun s => s == "ERROR") then "error"
  else if instance_statuses.any (fun s => transitional_states.contains s) then "transitioning"
  else if instance_statuses.any
      (fun s => (["powering-off", "stopping", "POWERING_OFF", "STOPPING"] : List String).contains s)
    then "stopping"
  else if instance_statuses.any
      (fun s => (["powering-on", "starting", "POWERING_ON", "STARTING"] : List String).contains s)
    then "starting"
  else if instance_statuses.any
      (fun s => (["SUSPENDED", "PAUSED", "SHELVED", "SHELVED_OFFLOADED"] : List String).contains s)
    then "stopped"
  else if instance_statuses.all (fun s => (["ACTIVE", "active"] : List String).contains s)
    then "running"
  else if instance_statuses.all (fun s => (["SHUTOFF", "shutoff"] : List String).contains s)
    then "stopped"
  else if instance_statuses.any (fun s => (["ACTIVE", "active"] : List String).contains s)
    then "partial"
  else "unknown"

/-- ASCII lowercasing of one character (the case folding relevant to the
status vocabulary and header names, all of which are ASCII). -/
def lowerChar (c : Char) : Char :=
  if 'A' ≤ c ∧ c ≤ 'Z' then Char.ofNat (c.toNat + 32) else c

/-- ASCII lowercasing of a string, used to state case-insensitive
comparison. -/
def lowerString (s : String) : String := ⟨s.data.map lowerChar⟩

/-- Aggregator as the specification words it: identical to the code's rule
list except that rules 7, 8 and 9 compare case-insensitively against
"ACTIVE" resp. "SHUTOFF". Stated from the spec to be compared with
`determine_cluster_status`. -/
def aggregate_spec (instance_statuses : List String) : String :=
  if instance_statuses.isEmpty then "unknown"
  else if instance_statuses.any (fun s => s == "ERROR") then "error"
  else if instance_statuses.any (fun s => transitional_states.contains s) then "transitioning"
  else if instance_statuses.any
      (fun s => (["powering-off", "stopping", "POWERING_OFF", "STOPPING"] : List String).contains s)
    then "stopping"
  else if instance_statuses.any
      (fun s => (["powering-on", "starting", "POWERING_ON", "STARTING"] : List String).contains s)
    then "starting"
  else if instance_statuses.any
      (fun s => (["SUSPENDED", "PAUSED", "SHELVED", "SHELVED_OFFLOADED"] : List String).contains s)
    then "stopped"
  else if instance_statuses.all (fun s => lowerString s == "active") then "running"
  else if instance_statuses.all (fun s => lowerString s == "shutoff") then "stopped"
  else if instance_statuses.any (fun s => lowerString s == "active") then "partial"
  else "unknown"

/-! ## Request signer (huawei_cloud_service.py, _generate_signature and
_make_request_manual).

The cryptographic primitives (SHA-256, HMAC-SHA-256), UTF-8 encoding, hex
rendering, URL quoting and Unicode lowercasing are external library calls
(hashlib, hmac, urllib, str.lower); they are abstracted as an explicit
bundle of opaque functions so that the composition performed by the signer
is what is embedded and verified. -/

/-- Byte strings, as produced by str.encode and hmac digests. -/
def ByteSeq : Type := List Nat

/-- The external primitives used by the manual signer. -/
structure SigPrims where
  sha256hex : ByteSeq → String
  hmacSha256 : ByteSeq → ByteSeq → ByteSeq
  bytesOfString : String → ByteSeq
  hexOfBytes : ByteSeq → String
  quote : String → String
  lower : String → String

/-- Ascending string comparison used by Python sorted. -/
def strLe (a b : String) : Bool := !(decide (b < a))

/-- Ascending comparison on (key, value) string pairs used by Python
sorted on dict items. -/
def pairLe (a b : String × String) : Bool :=
  if a.1 = b.1 then strLe a.2 b.2 else strLe a.1 b.1

/-- Embeds urlencode over a list of already sorted (key, value) pairs:
quote each component, join each pair with "=", join the pairs with "&". -/
def urlencode (quote : String → String) (pairs : List (String × String)) : String :=
  String.intercalate "&" (pairs.map (fun p => quote p.1 ++ "=" ++ quote p.2))

/-- Header pairs sorted by header name, as Python iterates
sorted(headers.keys()). -/
def sortHeaders (headers : List (String × String)) : List (String × String) :=
  headers.mergeSort (fun a b => strLe a.1 b.1)

/-- Embeds the canonical_headers construction of _generate_signature:
lowercased-name:value pairs in sorted key order, newline-joined. -/
def canonical_headers_str (P : SigPrims) (headers : List (String × String)) : String :=
  String.intercalate "\n" ((sortHeaders headers).map (fun p => P.lower p.1 ++ ":" ++ p.2))

/-- Embeds the signed_headers construction of _generate_signature:
lowercased names in sorted key order, ";"-joined. -/
def signed_headers_str (P : SigPrims) (headers : List (String × String)) : String :=
  String.intercalate ";" ((sortHeaders headers).map (fun p => P.lower p.1))

/-- The credential scope string of _generate_signature. -/
def credential_scope (date_stamp region : String) : String :=
  date_stamp ++ "/" ++ region ++ "/ecs/sdk_request"

/-- Embeds the body of _generate_signature once the timestamp and date
stamp are fixed: canonical request, string to sign, signing key, signature
and the final Authorization value. -/
def generate_signature_core (P : SigPrims) (cfg : HuaweiCloudConfig)
    (method uri : String) (query_params headers : List (String × String))
    (body timestamp date_stamp : String) : String :=
  let canonical_headers := canonical_headers_str P headers
  let signed_headers := signed_headers_str P headers
  let query_string := urlencode P.quote (query_params.mergeSort pairLe)
  let canonical_request :=
    method ++ "\n" ++ uri ++ "\n" ++ query_string ++ "\n" ++ canonical_headers ++ "\n\n"
      ++ signed_headers ++ "\n" ++ P.sha256hex (P.bytesOfString body)
  let algorithm := "SDK-HMAC-SHA256"
  let scope := credential_scope date_stamp cfg.region
  let string_to_sign :=
    algorithm ++ "\n" ++ timestamp ++ "\n" ++ scope ++ "\n"
      ++ P.sha256hex (P.bytesOfString canonical_request)
  let signing_key := P.hmacSha256 (P.bytesOfString cfg.secret_key) (P.bytesOfString scope)
  let signature := P.hexOfBytes (P.hmacSha256 signing_key (P.bytesOfString string_to_sign))
  algorithm ++ " Credential=" ++ cfg.access_key ++ "/" ++ scope
    ++ ", SignedHeaders=" ++ signed_headers ++ ", Signature=" ++ signature

/-- Embeds _generate_signature including its timestamp handling: when a
timestamp is provided the date stamp is its first 8 characters; when none
is provided the code renders datetime.utcnow twice, embedded as the two
render parameters now_ts and now_date. -/
def generate_signature (P : SigPrims) (cfg : HuaweiCloudConfig)
    (now_ts now_date : String) (method uri : String)
    (query_params headers : List (String × String)) (body : String)
    (timestamp : Option String) : String :=
  match timestamp with
  | none => generate_signature_core P cfg method uri query_params headers body now_ts now_date
  | some ts => generate_signature_core P cfg method uri query_params headers body ts (ts.take 8)

/-- Embeds the header block built by _make_request_manual before signing. -/
def manual_base_headers (cfg : HuaweiCloudConfig) (timestamp : String) :
    List (String × String) :=
  [("Content-Type", "application/json;charset=UTF-8"),
   ("X-Sdk-Date", timestamp),
   ("X-Project-Id", cfg.project_id),
   ("Host", "ecs." ++ cfg.region ++ ".myhuaweicloud.com")]

/-- Embeds the request-header assembly of _make_request_manual: one
timestamp is rendered, placed in X-Sdk-Date, handed to _generate_signature
(so the signer never re-derives it), and the resulting Authorization value
is appended. `uri` is the path component urlparse extracts from the URL. -/
def make_request_manual_headers (P : SigPrims) (cfg : HuaweiCloudConfig)
    (method uri : String) (query_params : List (String × String))
    (body timestamp : String) : List (String × String) :=
  let headers := manual_base_headers cfg timestamp
  let signature :=
    generate_signature P cfg "" "" method uri query_params headers body (some timestamp)
  headers ++ [("Authorization", signature)]

/-! ## Status cache (cache_service.py, ClusterStatusCache).

datetime.utcnow is embedded as an explicit integer `now` parameter
(seconds); timedelta(seconds=ttl) becomes integer addition. The Python
dict backing the cache is embedded as an association list with unique
keys: assignment replaces in place or appends, del removes the key. -/

/-- Embeds a cache entry as built by _create_cache_entry. -/
structure CacheEntry (α : Type) where
  data : α
  created_at : Int
  expires_at : Int
  ttl : Int

/-- Embeds the ClusterStatusCache state: the default TTL and the backing
dict. Every stored entry carries an expires_at field, so the
'expires_at' not in entry branch of _is_expired cannot fire. -/
structure ClusterStatusCache (α : Type) where
  default_ttl : Int
  cache : List (String × CacheEntry α)

/-- Embeds _is_expired: strictly past the expiry time. -/
def is_expired (now : Int) (entry : CacheEntry α) : Bool :=
  now > entry.expires_at

/-- Embeds _create_cache_entry, including the Python falsy fallback
`ttl or self.default_ttl`: both None and 0 fall back to the default TTL. -/
def create_cache_entry (c : ClusterStatusCache α) (now : Int) (data : α)
    (ttl : Option Int) : CacheEntry α :=
  let t := match ttl with
    | none => c.default_ttl
    | some v => if v = 0 then c.default_ttl else v
  { data := data, created_at := now, expires_at := now + t, ttl := t }

/-- Dict deletion: removes the binding of a key. -/
def eraseKey (m : List (String × β)) (k : String) : List (String × β) :=
  m.filter (fun p => p.1 != k)

/-- Dict assignment: replaces the binding in place when the key is
present, appends otherwise. -/
def setKey (m : List (String × β)) (k : String) (v : β) : List (String × β) :=
  if (m.lookup k).isSome then m.map (fun p => if p.1 == k then (k, v) else p)
  else m ++ [(k, v)]

/-- Embeds ClusterStatusCache.get: a miss returns None; a hit past expiry
deletes the entry and returns None; a live hit returns the payload. The
returned pair is (result, cache state after the call). -/
def ClusterStatusCache.get (c : ClusterStatusCache α) (now : Int) (key : String) :
    Option α × ClusterStatusCache α :=
  match c.cache.lookup key with
  | none => (none, c)
  | some entry =>
    if is_expired now entry then (none, { c with cache := eraseKey c.cache key })
    else (some entry.data, c)

/-- Embeds ClusterStatusCache.set. -/
def ClusterStatusCache.set (c : ClusterStatusCache α) (now : Int) (key : String)
    (value : α) (ttl : Option Int) : ClusterStatusCache α :=
  { c with cache := setKey c.cache key (create_cache_entry c now value ttl) }

/-- Embeds ClusterStatusCache.delete. The returned pair is (cache state
after the call, whether the key existed). -/
def ClusterStatusCache.delete (c : ClusterStatusCache α) (key : String) :
    ClusterStatusCache α × Bool :=
  if (c.cache.lookup key).isSome then ({ c with cache := eraseKey c.cache key }, true)
  else (c, false)

/-- Embeds the stats record returned by get_stats. -/
structure CacheStats where
  total_entries : Nat
  active_entries : Nat
  expired_entries : Nat
  default_ttl : Int
  keys : List String

/-- Embeds ClusterStatusCache.get_stats. -/
def get_stats (c : ClusterStatusCache α) (now : Int) : CacheStats :=
  let total := c.cache.length
  let expired := (c.cache.filter (fun p => is_expired now p.2)).length
  { total_entries := total
    active_entries := total - expired
    expired_entries := expired
    default_ttl := c.default_ttl
    keys := c.cache.map (fun p => p.1) }

/-- Embeds ClusterStatusCache.invalidate_cluster_cache: delete the
per-cluster key, then the all-clusters key. -/
def invalidate_cluster_cache (c : ClusterStatusCache α) (cluster_name : String) :
    ClusterStatusCache α :=
  let c1 := (c.delete ("cluster_status:" ++ cluster_name)).1
  (c1.delete "all_clusters_status").1

/-! ## Instance status fetch (huawei_cloud_service.py, get_instance_status).

The underlying _make_request either returns a parsed JSON response or
raises; this is embedded as an Except value. The response payload and the
extraction response.get("server", ...) are abstract, since their shape is
owned by the cloud API. -/

/-- The synthetic record built in the except branch of
get_instance_status. -/
structure SyntheticStatus where
  id : String
  status : String
  error : String
deriving DecidableEq

/-- The two shapes get_instance_status can return: the server payload of a
successful response, or the synthetic error record. -/
inductive InstanceStatusResult (β : Type) where
  | server (payload : β)
  | failed (record : SyntheticStatus)
deriving DecidableEq

/-- Embeds get_instance_status: on success, extract the server payload; on
any raised error, swallow it and return the synthetic record with status
"unknown" and the error message. -/
def get_instance_status (getServer : α → β) (request : Except String α)
    (instance_id : String) : InstanceStatusResult β :=
  match request with
  | .ok response => .server (getServer response)
  | .error e => .failed { id := instance_id, status := "unknown", error := e }

/-! ## Cluster start/stop (huawei_cloud_service.py, start_cluster and
stop_cluster).

start_instance / stop_instance return a boolean after swallowing request
errors; their outcomes are abstracted as a function from instance id to
Bool. The global cluster_cache mutated by the Python code is threaded as
an explicit state. -/

/-- One element of the result's instances list. -/
structure InstanceActionResult where
  instance_id : String
  success : Bool
deriving DecidableEq

/-- Embeds the result dict built by start_cluster / stop_cluster. -/
structure ClusterActionResult where
  cluster_name : String
  action : String
  success : Bool
  instances : List InstanceActionResult
  errors : List String
deriving DecidableEq

/-- Embeds the per-instance for loop of stop_cluster. -/
def stop_cluster_loop (outcome : String → Bool) :
    List String → ClusterActionResult → ClusterActionResult
  | [], acc => acc
  | iid :: rest, acc =>
    let acc :=
      if outcome iid then
        { acc with instances := acc.instances ++ [{ instance_id := iid, success := true }] }
      else
        { acc with
            success := false
            errors := acc.errors ++ ["Failed to stop instance " ++ iid]
            instances := acc.instances ++ [{ instance_id := iid, success := false }] }
    stop_cluster_loop outcome rest acc

/-- Embeds stop_cluster: run the loop from the initial result dict, then
invalidate the cluster cache unconditionally. -/
def stop_cluster (outcome : String → Bool) (cluster : ClusterConfig)
    (cache : ClusterStatusCache α) : ClusterActionResult × ClusterStatusCache α :=
  let init : ClusterActionResult :=
    { cluster_name := cluster.name, action := "stop", success := true
      instances := [], errors := [] }
  let result := stop_cluster_loop outcome cluster.instance_ids init
  (result, invalidate_cluster_cache cache cluster.name)

/-- Embeds the per-instance for loop of start_cluster. -/
def start_cluster_loop (outcome : String → Bool) :
    List String → ClusterActionResult → ClusterActionResult
  | [], acc => acc
  | iid :: rest, acc =>
    let acc :=
      if outcome iid then
        { acc with instances := acc.instances ++ [{ instance_id := iid, success := true }] }
      else
        { acc with
            success := false
            errors := acc.errors ++ ["Failed to start instance " ++ iid]
            instances := acc.instances ++ [{ instance_id := iid, success := false }] }
    start_cluster_loop outcome rest acc

/-- Embeds start_cluster. -/
def start_cluster (outcome : String → Bool) (cluster : ClusterConfig)
    (cache : ClusterStatusCache α) : ClusterActionResult × ClusterStatusCache α :=
  let init : ClusterActionResult :=
    { cluster_name := cluster.name, action := "start", success := true
      instances := [], errors := [] }
  let result := start_cluster_loop outcome cluster.instance_ids init
  (result, invalidate_cluster_cache cache cluster.name)

/-! ## Scheduler job registration (scheduler_service.py,
_schedule_cluster_job). -/

/-- Embeds a registered APScheduler job as far as the claims are
concerned: its id, human name and cron trigger. -/
structure SchedJob where
  id : String
  name : String
  trigger : String
deriving DecidableEq

/-- Modelled from the spec: APScheduler's add_job with
replace_existing=True, whose documented semantics scheduler_service.py
relies on — when a job with the same id exists its definition is replaced
in place, otherwise the job is appended; no duplicate ids are ever
created. (APScheduler is an external library; only its call sites are in
the repository.) -/
def add_job (store : List SchedJob) (job : SchedJob) : List SchedJob :=
  if store.any (fun j => j.id == job.id) then
    store.map (fun j => if j.id == job.id then job else j)
  else store ++ [job]

/-- Embeds the first block of _schedule_cluster_job: register a wake-up
job when the cluster schedule has a "wake_up" cron expression and it
parses; the job id is the cluster name plus "_wake_up".
CronTrigger.from_crontab failure (which the code catches, skipping that
job) is abstracted as the predicate cronValid. -/
def register_wake (cronValid : String → Bool) (store : List SchedJob)
    (cluster : ClusterConfig) : List SchedJob :=
  match cluster.schedule.lookup "wake_up" with
  | some cron_expr =>
    if cronValid cron_expr then
      add_job store
        { id := cluster.name ++ "_wake_up"
          name := "Wake up " ++ cluster.name
          trigger := cron_expr }
    else store
  | none => store

/-- Embeds the second block of _schedule_cluster_job: register a shutdown
job when the cluster schedule has a "shutdown" cron expression and it
parses; the job id is the cluster name plus "_shutdown". -/
def register_shutdown (cronValid : String → Bool) (store : List SchedJob)
    (cluster : ClusterConfig) : List SchedJob :=
  match cluster.schedule.lookup "shutdown" with
  | some cron_expr =>
    if cronValid cron_expr then
      add_job store
        { id := cluster.name ++ "_shutdown"
          name := "Shutdown " ++ cluster.name
          trigger := cron_expr }
    else store
  | none => store

/-- Embeds _schedule_cluster_job: the wake-up block followed by the
shutdown block. -/
def schedule_cluster_job (cronValid : String → Bool) (store : List SchedJob)
    (cluster : ClusterConfig) : List SchedJob :=
  register_shutdown cronValid (register_wake cronValid store cluster) cluster

/-- Concrete enabled cluster named "c" with both cron expressions, used
as a verification input. -/
def witness_cluster : ClusterConfig :=
  { name := "c", instance_ids := [], region := "r", description := ""
    tags := [], schedule := [("wake_up", "0 8 * * *"), ("shutdown", "0 20 * * *")]
    enabled := true }

/-- The ids of the registered jobs. -/
def jobIds (store : List SchedJob) : List String := store.map (fun j => j.id)

/-- Lookup of a job by id, as scheduler.get_job does. -/
def findJob (store : List SchedJob) (job_id : String) : Option SchedJob :=
  store.find? (fun j => j.id == job_id)

/-! ## Helper lemmas -/

/-- Permutation invariance of List.any. -/
theorem list_perm_any {α : Type} {l l' : List α} (h : l.Perm l') (p : α → Bool) :
    l.any p = l'.any p := by
  induction h with
  | nil => rfl
  | cons x _ ih => simp [List.any_cons, ih]
  | swap x y l =>
    simp only [List.any_cons]
    cases p x <;> cases p y <;> simp
  | trans _ _ ih1 ih2 => rw [ih1, ih2]

/-- Permutation invariance of List.all. -/
theorem list_perm_all {α : Type} {l l' : List α} (h : l.Perm l') (p : α → Bool) :
    l.all p = l'.all p := by
  induction h with
  | nil => rfl
  | cons x _ ih => simp [List.all_cons, ih]
  | swap x y l =>
    simp only [List.all_cons]
    cases p x <;> cases p y <;> simp
  | trans _ _ ih1 ih2 => rw [ih1, ih2]

/-- Permutation invariance of List.isEmpty. -/
theorem list_perm_isEmpty {α : Type} {l l' : List α} (h : l.Perm l') :
    l.isEmpty = l'.isEmpty := by
  have hl := h.length_eq
  cases l <;> cases l' <;> simp_all [List.isEmpty]

/-- Looking up a key in a map it was erased from misses. -/
theorem lookup_eraseKey_self (m : List (String × β)) (k : String) :
    (eraseKey m k).lookup k = none := by
  induction m with
  | nil => rfl
  | cons p rest ih =>
    obtain ⟨a, b⟩ := p
    rw [eraseKey, List.filter_cons]
    by_cases h : a = k
    · have hc : ((a, b).1 != k) = false := by simpa using h
      rw [hc]
      simp only [Bool.false_eq_true, if_false]
      exact ih
    · have hc : ((a, b).1 != k) = true := by simpa using h
      rw [hc]
      simp only [if_true]
      rw [List.lookup_cons, beq_false_of_ne (Ne.symm h)]
      exact ih

/-- Erasing one key leaves lookups of any other key unchanged. -/
theorem lookup_eraseKey_ne (m : List (String × β)) {k j : String} (h : k ≠ j) :
    (eraseKey m j).lookup k = m.lookup k := by
  induction m with
  | nil => rfl
  | cons p rest ih =>
    obtain ⟨a, b⟩ := p
    rw [eraseKey, List.filter_cons]
    by_cases hp : a = j
    · have hc : ((a, b).1 != j) = false := by simpa using hp
      rw [hc]
      simp only [Bool.false_eq_true, if_false]
      have ih2 : (List.filter (fun p => p.1 != j) rest).lookup k = rest.lookup k := ih
      rw [ih2, List.lookup_cons, beq_false_of_ne (fun hh : k = a => h (hh.trans hp))]
    · have hc : ((a, b).1 != j) = true := by simpa using hp
      rw [hc]
      simp only [if_true]
      rw [List.lookup_cons, List.lookup_cons]
      by_cases hk : k = a
      · simp [hk]
      · rw [beq_false_of_ne hk]
        exact ih

/-- ClusterStatusCache.delete removes the deleted key. -/
theorem lookup_delete_self (c : ClusterStatusCache α) (k : String) :
    (c.delete k).1.cache.lookup k = none := by
  unfold ClusterStatusCache.delete
  by_cases h : (c.cache.lookup k).isSome
  · simp only [h, if_true]
    exact lookup_eraseKey_self c.cache k
  · simp only [h, Bool.false_eq_true, if_false]
    exact Option.not_isSome_iff_eq_none.mp h

/-- ClusterStatusCache.delete leaves other keys unchanged. -/
theorem lookup_delete_ne (c : ClusterStatusCache α) {k j : String} (h : k ≠ j) :
    (c.delete j).1.cache.lookup k = c.cache.lookup k := by
  unfold ClusterStatusCache.delete
  by_cases hj : (c.cache.lookup j).isSome
  · simp only [hj, if_true]
    exact lookup_eraseKey_ne c.cache h
  · simp [hj]

/-- The per-cluster cache key never collides with the all-clusters key. -/
theorem cluster_key_ne (name : String) :
    ("cluster_status:" ++ name) ≠ "all_clusters_status" := by
  intro h
  have h2 : some 'c' = some 'a' := congrArg (fun s => s.data.head?) h
  exact Option.noConfusion h2 (fun hh => Char.noConfusion hh (by decide))

/-- Invalidating a cluster removes both cluster-scoped keys. -/
theorem invalidate_lookup (c : ClusterStatusCache α) (name : String) :
    (invalidate_cluster_cache c name).cache.lookup ("cluster_status:" ++ name) = none ∧
    (invalidate_cluster_cache c name).cache.lookup "all_clusters_status" = none := by
  unfold invalidate_cluster_cache
  constructor
  · rw [lookup_delete_ne _ (cluster_key_ne name), lookup_delete_self]
  · exact lookup_delete_self _ _

/-- Appending after a miss defers lookup to the appended part. -/
theorem lookup_append_of_none {m l : List (String × β)} {k : String}
    (h : m.lookup k = none) : (m ++ l).lookup k = l.lookup k := by
  induction m with
  | nil => simp
  | cons p rest ih =>
    obtain ⟨a, b⟩ := p
    cases hk : (k == a)
    · rw [List.cons_append, List.lookup_cons, hk]
      rw [List.lookup_cons, hk] at h
      exact ih h
    · rw [List.lookup_cons, hk] at h
      cases h

/-- Replacing the binding of a present key in place makes lookup return
the new value. -/
theorem lookup_map_replace {m : List (String × β)} {k : String} {v : β}
    (h : (m.lookup k).isSome) :
    (m.map (fun p => if p.1 == k then (k, v) else p)).lookup k = some v := by
  induction m with
  | nil => simp at h
  | cons p rest ih =>
    obtain ⟨a, b⟩ := p
    cases ha : (a == k)
    · have hk : (k == a) = false :=
        beq_false_of_ne (Ne.symm (beq_eq_false_iff_ne.mp ha))
      rw [List.map_cons]
      simp only [ha, Bool.false_eq_true, if_false]
      rw [List.lookup_cons, hk]
      rw [List.lookup_cons, hk] at h
      exact ih h
    · rw [List.map_cons]
      simp only [ha, if_true]
      simp

/-- Lookup after dict assignment returns the assigned value. -/
theorem lookup_setKey_self (m : List (String × β)) (k : String) (v : β) :
    (setKey m k v).lookup k = some v := by
  unfold setKey
  by_cases h : (m.lookup k).isSome
  · simp only [h, if_true]
    exact lookup_map_replace h
  · simp only [h, Bool.false_eq_true, if_false]
    rw [lookup_append_of_none (Option.not_isSome_iff_eq_none.mp h)]
    simp

/-- An erased key no longer shows among the keys. -/
theorem not_mem_keys_eraseKey (m : List (String × β)) (k : String) :
    k ∉ (eraseKey m k).map (fun p => p.1) := by
  intro h
  rcases List.mem_map.mp h with ⟨p, hp, he⟩
  have h2 := (List.mem_filter.mp hp).2
  rw [he] at h2
  simp at h2

/-! ## Claim theorems -/

/-- C1 counterexample: the claim states that a list whose elements are all
case-insensitively equal to "ACTIVE" aggregates to "running", but on
["Active"] the code returns "unknown" while the claim's 10-rule evaluation
returns "running": the code's final three rules compare only against the
exact spellings "ACTIVE"/"active" resp. "SHUTOFF"/"shutoff". -/
theorem claim1_counterexample :
    determine_cluster_status ["Active"] = "unknown" ∧
    aggregate_spec ["Active"] = "running" ∧
    determine_cluster_status ["Active"] ≠ aggregate_spec ["Active"] := by
  refine ⟨by decide, by decide, by decide⟩

/-- C1 amended: the cluster status aggregator returns the result of the
10-rule precedence evaluation, first match wins, where the last four rules
read: all elements equal to "ACTIVE" or "active" gives "running"; all
elements equal to "SHUTOFF" or "shutoff" gives "stopped"; any element
equal to "ACTIVE" or "active" gives "partial"; otherwise "unknown". -/
theorem claim1_amended (l : List String) :
    determine_cluster_status l =
      if l = [] then "unknown"
      else if ∃ s ∈ l, s = "ERROR" then "error"
      else if ∃ s ∈ l, s ∈ transitional_states then "transitioning"
      else if ∃ s ∈ l,
          s ∈ (["powering-off", "stopping", "POWERING_OFF", "STOPPING"] : List String)
        then "stopping"
      else if ∃ s ∈ l,
          s ∈ (["powering-on", "starting", "POWERING_ON", "STARTING"] : List String)
        then "starting"
      else if ∃ s ∈ l,
          s ∈ (["SUSPENDED", "PAUSED", "SHELVED", "SHELVED_OFFLOADED"] : List String)
        then "stopped"
      else if ∀ s ∈ l, s = "ACTIVE" ∨ s = "active" then "running"
      else if ∀ s ∈ l, s = "SHUTOFF" ∨ s = "shutoff" then "stopped"
      else if ∃ s ∈ l, s = "ACTIVE" ∨ s = "active" then "partial"
      else "unknown" := by
  simp only [determine_cluster_status, List.isEmpty_iff, List.any_eq_true,
    List.all_eq_true, List.contains, List.elem_iff, beq_iff_eq,
    List.mem_cons, List.not_mem_nil, or_false, transitional_states]

/-- C9: the status aggregator is order-independent: permuting the input
list of raw status strings never changes the result. -/
theorem claim9_perm_invariant (l l' : List String) (h : l.Perm l') :
    determine_cluster_status l = determine_cluster_status l' := by
  unfold determine_cluster_status
  rw [list_perm_isEmpty h, list_perm_any h, list_perm_any h, list_perm_any h,
    list_perm_any h, list_perm_any h, list_perm_all h, list_perm_all h,
    list_perm_any h]

/-- C9 witness: a concrete permutation, on which the aggregator agrees. -/
theorem claim9_witness :
    (["ACTIVE", "SHUTOFF"] : List String).Perm ["SHUTOFF", "ACTIVE"] ∧
    determine_cluster_status ["ACTIVE", "SHUTOFF"] =
      determine_cluster_status ["SHUTOFF", "ACTIVE"] :=
  ⟨List.Perm.swap "SHUTOFF" "ACTIVE" [],
   claim9_perm_invariant _ _ (List.Perm.swap "SHUTOFF" "ACTIVE" [])⟩

/-- C2: for every method, URI, query-parameter map, header map, body and
timestamp, the manual signer emits exactly the specified Authorization
value: canonical request of METHOD, URI, sorted-and-encoded query string,
sorted lowercased-name:value canonical headers, an empty line, the
";"-joined signed header names and the hex SHA256 of the body, all
newline-joined; string-to-sign of "SDK-HMAC-SHA256", the timestamp, the
credential scope and the hex SHA256 of the canonical request; signing key
HMAC-SHA256(secret_key, credential_scope); and the final
"SDK-HMAC-SHA256 Credential=..., SignedHeaders=..., Signature=..." text. -/
theorem claim2_signature (P : SigPrims) (cfg : HuaweiCloudConfig)
    (now_ts now_date method uri : String)
    (query_params headers : List (String × String)) (body ts : String) :
    generate_signature P cfg now_ts now_date method uri query_params headers body (some ts) =
      (let sorted_headers := headers.mergeSort (fun a b => strLe a.1 b.1)
      let canonical_headers :=
        String.intercalate "\n" (sorted_headers.map (fun p => P.lower p.1 ++ ":" ++ p.2))
      let signed_headers :=
        String.intercalate ";" (sorted_headers.map (fun p => P.lower p.1))
      let query_string := urlencode P.quote (query_params.mergeSort pairLe)
      let canonical_request :=
        method ++ "\n" ++ uri ++ "\n" ++ query_string ++ "\n" ++ canonical_headers
          ++ "\n\n" ++ signed_headers ++ "\n" ++ P.sha256hex (P.bytesOfString body)
      let scope := ts.take 8 ++ "/" ++ cfg.region ++ "/ecs/sdk_request"
      let string_to_sign :=
        "SDK-HMAC-SHA256" ++ "\n" ++ ts ++ "\n" ++ scope ++ "\n"
          ++ P.sha256hex (P.bytesOfString canonical_request)
      let signing_key :=
        P.hmacSha256 (P.bytesOfString cfg.secret_key) (P.bytesOfString scope)
      let signature :=
        P.hexOfBytes (P.hmacSha256 signing_key (P.bytesOfString string_to_sign))
      "SDK-HMAC-SHA256 Credential=" ++ cfg.access_key ++ "/" ++ scope
        ++ ", SignedHeaders=" ++ signed_headers ++ ", Signature=" ++ signature) := by
  rfl

/-- C3: in every request built by the manual request path, the timestamp
is computed once: it is the X-Sdk-Date header value, it is the timestamp
handed to the signer, and the credential-scope date segment inside the
Authorization header is exactly its first 8 characters. -/
theorem claim3_timestamp_consistency (P : SigPrims) (cfg : HuaweiCloudConfig)
    (method uri : String) (query_params : List (String × String)) (body ts : String) :
    (make_request_manual_headers P cfg method uri query_params body ts).lookup "X-Sdk-Date"
        = some ts ∧
    (make_request_manual_headers P cfg method uri query_params body ts).lookup "Authorization"
        = some (generate_signature P cfg "" "" method uri query_params
            (manual_base_headers cfg ts) body (some ts)) ∧
    ∃ signed_headers signature,
      (make_request_manual_headers P cfg method uri query_params body ts).lookup "Authorization"
        = some ("SDK-HMAC-SHA256 Credential=" ++ cfg.access_key ++ "/"
            ++ credential_scope (ts.take 8) cfg.region
            ++ ", SignedHeaders=" ++ signed_headers ++ ", Signature=" ++ signature) := by
  refine ⟨rfl, rfl, signed_headers_str P (manual_base_headers cfg ts), ?_, ?_⟩
  · exact P.hexOfBytes (P.hmacSha256
      (P.hmacSha256 (P.bytesOfString cfg.secret_key)
        (P.bytesOfString (credential_scope (ts.take 8) cfg.region)))
      (P.bytesOfString ("SDK-HMAC-SHA256" ++ "\n" ++ ts ++ "\n"
        ++ credential_scope (ts.take 8) cfg.region ++ "\n"
        ++ P.sha256hex (P.bytesOfString
          (method ++ "\n" ++ uri ++ "\n"
            ++ urlencode P.quote (query_params.mergeSort pairLe) ++ "\n"
            ++ canonical_headers_str P (manual_base_headers cfg ts) ++ "\n\n"
            ++ signed_headers_str P (manual_base_headers cfg ts) ++ "\n"
            ++ P.sha256hex (P.bytesOfString body))))))
  · rfl

/-- Closed form of the stop_cluster per-instance loop. -/
theorem stop_cluster_loop_spec (outcome : String → Bool) (ids : List String)
    (acc : ClusterActionResult) :
    stop_cluster_loop outcome ids acc =
      { acc with
          success := acc.success && ids.all outcome
          instances := acc.instances
            ++ ids.map (fun i => { instance_id := i, success := outcome i })
          errors := acc.errors
            ++ (ids.filter (fun i => !outcome i)).map
                (fun i => "Failed to stop instance " ++ i) } := by
  induction ids generalizing acc with
  | nil => simp [stop_cluster_loop]
  | cons i rest ih =>
    rw [stop_cluster_loop]
    cases h : outcome i
    · simp only [Bool.false_eq_true, if_false]
      rw [ih]
      simp [h, List.filter_cons, List.append_assoc]
    · simp only [if_true]
      rw [ih]
      simp [h, List.filter_cons, List.append_assoc]

/-- Closed form of the start_cluster per-instance loop. -/
theorem start_cluster_loop_spec (outcome : String → Bool) (ids : List String)
    (acc : ClusterActionResult) :
    start_cluster_loop outcome ids acc =
      { acc with
          success := acc.success && ids.all outcome
          instances := acc.instances
            ++ ids.map (fun i => { instance_id := i, success := outcome i })
          errors := acc.errors
            ++ (ids.filter (fun i => !outcome i)).map
                (fun i => "Failed to start instance " ++ i) } := by
  induction ids generalizing acc with
  | nil => simp [start_cluster_loop]
  | cons i rest ih =>
    rw [start_cluster_loop]
    cases h : outcome i
    · simp only [Bool.false_eq_true, if_false]
      rw [ih]
      simp [h, List.filter_cons, List.append_assoc]
    · simp only [if_true]
      rw [ih]
      simp [h, List.filter_cons, List.append_assoc]

/-- C4: after stop_cluster or start_cluster, both the per-cluster status
key and the all-clusters key are absent from the cache, for every
per-instance outcome pattern, so independently of reported success or
failure. -/
theorem claim4_invalidation (outcome : String → Bool) (cluster : ClusterConfig)
    (cache : ClusterStatusCache α) :
    (stop_cluster outcome cluster cache).2.cache.lookup
        ("cluster_status:" ++ cluster.name) = none ∧
    (stop_cluster outcome cluster cache).2.cache.lookup "all_clusters_status" = none ∧
    (start_cluster outcome cluster cache).2.cache.lookup
        ("cluster_status:" ++ cluster.name) = none ∧
    (start_cluster outcome cluster cache).2.cache.lookup "all_clusters_status" = none := by
  refine ⟨?_, ?_, ?_, ?_⟩
  · exact (invalidate_lookup cache cluster.name).1
  · exact (invalidate_lookup cache cluster.name).2
  · exact (invalidate_lookup cache cluster.name).1
  · exact (invalidate_lookup cache cluster.name).2

/-- C5: for a cluster of n instance ids of which k fail, stop_cluster and
start_cluster report success exactly when k = 0, an errors list of exactly
the k failure messages, and an instances list with one entry per instance
id in order carrying that instance's outcome. -/
theorem claim5_partial_failure (outcome : String → Bool) (cluster : ClusterConfig)
    (cache : ClusterStatusCache α) :
    ((stop_cluster outcome cluster cache).1.success = true ↔
        (cluster.instance_ids.filter (fun i => !outcome i)).length = 0) ∧
    (stop_cluster outcome cluster cache).1.errors.length =
        (cluster.instance_ids.filter (fun i => !outcome i)).length ∧
    (stop_cluster outcome cluster cache).1.errors =
        (cluster.instance_ids.filter (fun i => !outcome i)).map
          (fun i => "Failed to stop instance " ++ i) ∧
    (stop_cluster outcome cluster cache).1.instances =
        cluster.instance_ids.map (fun i => { instance_id := i, success := outcome i }) ∧
    ((start_cluster outcome cluster cache).1.success = true ↔
        (cluster.instance_ids.filter (fun i => !outcome i)).length = 0) ∧
    (start_cluster outcome cluster cache).1.errors.length =
        (cluster.instance_ids.filter (fun i => !outcome i)).length ∧
    (start_cluster outcome cluster cache).1.errors =
        (cluster.instance_ids.filter (fun i => !outcome i)).map
          (fun i => "Failed to start instance " ++ i) ∧
    (start_cluster outcome cluster cache).1.instances =
        cluster.instance_ids.map (fun i => { instance_id := i, success := outcome i }) := by
  have hstop := stop_cluster_loop_spec outcome cluster.instance_ids
    { cluster_name := cluster.name, action := "stop", success := true
      instances := [], errors := [] }
  have hstart := start_cluster_loop_spec outcome cluster.instance_ids
    { cluster_name := cluster.name, action := "start", success := true
      instances := [], errors := [] }
  refine ⟨?_, ?_, ?_, ?_, ?_, ?_, ?_, ?_⟩
  · show (stop_cluster_loop outcome cluster.instance_ids _).success = true ↔ _
    rw [hstop]
    simp [List.all_eq_true, List.length_eq_zero, List.filter_eq_nil_iff]
  · show (stop_cluster_loop outcome cluster.instance_ids _).errors.length = _
    rw [hstop]
    simp
  · show (stop_cluster_loop outcome cluster.instance_ids _).errors = _
    rw [hstop]
    simp
  · show (stop_cluster_loop outcome cluster.instance_ids _).instances = _
    rw [hstop]
    simp
  · show (start_cluster_loop outcome cluster.instance_ids _).success = true ↔ _
    rw [hstart]
    simp [List.all_eq_true, List.length_eq_zero, List.filter_eq_nil_iff]
  · show (start_cluster_loop outcome cluster.instance_ids _).errors.length = _
    rw [hstart]
    simp
  · show (start_cluster_loop outcome cluster.instance_ids _).errors = _
    rw [hstart]
    simp
  · show (start_cluster_loop outcome cluster.instance_ids _).instances = _
    rw [hstart]
    simp

/-- C6: get_instance_status never propagates a failure: whenever the
underlying request raises, for every instance id and error message the
returned value is the synthetic record with the requested id, status
"unknown" and the error message. -/
theorem claim6_synthetic_on_failure (α β : Type) (getServer : α → β)
    (instance_id e : String) :
    get_instance_status getServer (Except.error e) instance_id =
      InstanceStatusResult.failed
        { id := instance_id, status := "unknown", error := e } := rfl

/-- C7 counterexample: the claim states that once at least t seconds have
elapsed the entry is absent, but expiry is strict (now > expires_at): with
ttl 1 set at time 0, a get at time 1 — exactly 1 second later, so at least
1 second elapsed — still returns the payload. -/
theorem claim7_counterexample :
    (1 : Int) - 0 ≥ 1 ∧
    (((⟨60, []⟩ : ClusterStatusCache Nat).set 0 "k" 7 (some 1)).get 1 "k").1 = some 7 := by
  exact ⟨by decide, by decide⟩

/-- C7 amended: with a nonzero ttl t, once strictly more than t seconds
have elapsed, get returns absent and evicts the entry, so stats no longer
lists the key; and the stored entry is expired at every such instant, so
no operation past expiry returns its payload. -/
theorem claim7_amended (c : ClusterStatusCache α) (k : String) (v : α)
    (t now0 now1 : Int) (ht : t ≠ 0) (h : now1 > now0 + t) :
    ((c.set now0 k v (some t)).get now1 k).1 = none ∧
    k ∉ (get_stats ((c.set now0 k v (some t)).get now1 k).2 now1).keys ∧
    ∀ e, (c.set now0 k v (some t)).cache.lookup k = some e →
      is_expired now1 e = true := by
  have hentry : create_cache_entry c now0 v (some t) =
      { data := v, created_at := now0, expires_at := now0 + t, ttl := t } := by
    simp [create_cache_entry, ht]
  have hlook : (c.set now0 k v (some t)).cache.lookup k =
      some (create_cache_entry c now0 v (some t)) :=
    lookup_setKey_self c.cache k (create_cache_entry c now0 v (some t))
  have hexp : is_expired now1 (create_cache_entry c now0 v (some t)) = true := by
    rw [hentry]
    simp only [is_expired, decide_eq_true_eq]
    exact h
  refine ⟨?_, ?_, ?_⟩
  · unfold ClusterStatusCache.get
    rw [hlook]
    simp [hexp]
  · unfold ClusterStatusCache.get
    rw [hlook]
    simp only [hexp, if_true, get_stats]
    exact not_mem_keys_eraseKey _ _
  · intro e he
    rw [hlook] at he
    injection he with he2
    rw [← he2]
    exact hexp

/-- C7 witness: set at time 0 with ttl 1, read at time 2. -/
theorem claim7_witness :
    (1 : Int) ≠ 0 ∧ (2 : Int) > 0 + 1 ∧
    ((((⟨60, []⟩ : ClusterStatusCache Nat)).set 0 "k" 7 (some 1)).get 2 "k").1 = none ∧
    "k" ∉ (get_stats
        (((⟨60, []⟩ : ClusterStatusCache Nat).set 0 "k" 7 (some 1)).get 2 "k").2 2).keys ∧
    ∀ e, ((⟨60, []⟩ : ClusterStatusCache Nat).set 0 "k" 7 (some 1)).cache.lookup "k"
        = some e → is_expired 2 e = true :=
  ⟨by decide, by decide,
   (claim7_amended ⟨60, []⟩ "k" 7 1 0 2 (by decide) (by decide)).1,
   (claim7_amended ⟨60, []⟩ "k" 7 1 0 2 (by decide) (by decide)).2.1,
   (claim7_amended ⟨60, []⟩ "k" 7 1 0 2 (by decide) (by decide)).2.2⟩

/-- C10 counterexample: the claim's general clause says set never stores
an entry that is already expired at creation time, but a negative ttl is
truthy in Python, so set(k, v, ttl=-1) stores an entry whose expiry lies
before its creation instant: it is expired immediately and a get at the
very same instant already misses. -/
theorem claim10_counterexample :
    is_expired 0
        (create_cache_entry (⟨60, []⟩ : ClusterStatusCache Nat) 0 7 (some (-1))) = true ∧
    (((⟨60, []⟩ : ClusterStatusCache Nat).set 0 "k" 7 (some (-1))).get 0 "k").1 = none := by
  exact ⟨by decide, by decide⟩

/-- C10 amended: set(k, v, ttl=0) does not create an immediately-expired
entry: a ttl of 0 falls back to the default TTL, the stored ttl and expiry
equal those of the default-TTL case, and the entry is retrievable by get
immediately afterwards; and for every ttl that is absent or nonnegative,
set never stores an entry that is already expired at creation time. -/
theorem claim10_amended (c : ClusterStatusCache α) (now : Int) (k : String) (v : α)
    (ttl : Option Int) (hd : 0 ≤ c.default_ttl) (ht : ∀ x, ttl = some x → 0 ≤ x) :
    create_cache_entry c now v (some 0) = create_cache_entry c now v none ∧
    (create_cache_entry c now v (some 0)).ttl = c.default_ttl ∧
    (create_cache_entry c now v (some 0)).expires_at = now + c.default_ttl ∧
    is_expired now (create_cache_entry c now v ttl) = false ∧
    ((c.set now k v (some 0)).get now k).1 = some v := by
  have hfresh : is_expired now (create_cache_entry c now v (some 0)) = false := by
    simp only [create_cache_entry, is_expired, decide_eq_false_iff_not]
    omega
  refine ⟨rfl, rfl, rfl, ?_, ?_⟩
  · rcases ttl with _ | x
    · simp only [create_cache_entry, is_expired, decide_eq_false_iff_not]
      omega
    · have hx := ht x rfl
      by_cases h0 : x = 0
      · subst h0
        exact hfresh
      · simp only [create_cache_entry, is_expired, h0, if_false,
          decide_eq_false_iff_not]
        omega
  · have hlook : (c.set now k v (some 0)).cache.lookup k =
        some (create_cache_entry c now v (some 0)) :=
      lookup_setKey_self c.cache k (create_cache_entry c now v (some 0))
    unfold ClusterStatusCache.get
    rw [hlook]
    have hfresh2 : is_expired now
        { data := v, created_at := now, expires_at := now + c.default_ttl,
          ttl := c.default_ttl } = false := hfresh
    simp [create_cache_entry, hfresh2]

/-- C10 witness: default TTL 60, set with ttl 0 at time 0 and a general
nonnegative ttl 5. -/
theorem claim10_witness :
    (0 : Int) ≤ 60 ∧
    is_expired 0 (create_cache_entry (⟨60, []⟩ : ClusterStatusCache Nat) 0 7 (some 5))
        = false ∧
    (((⟨60, []⟩ : ClusterStatusCache Nat).set 0 "k" 7 (some 0)).get 0 "k").1 = some 7 :=
  ⟨by decide,
   (claim10_amended ⟨60, []⟩ 0 "k" 7 (some 5) (by decide)
     (fun x hx => by cases hx; decide)).2.2.2.1,
   (claim10_amended ⟨60, []⟩ 0 "k" 7 (some 5) (by decide)
     (fun x hx => by cases hx; decide)).2.2.2.2⟩

/-- Appending a string on the right is injective, so distinct suffixes
give distinct job ids. -/
theorem string_append_right_ne (a : String) {b c : String} (h : b ≠ c) :
    a ++ b ≠ a ++ c := by
  intro hh
  apply h
  have hd : a.data ++ b.data = a.data ++ c.data := congrArg String.data hh
  exact congrArg String.mk (List.append_cancel_left hd)

/-- Membership after add_job: either an old job or the new one. -/
theorem mem_add_job {store : List SchedJob} {nj j : SchedJob}
    (h : j ∈ add_job store nj) : j ∈ store ∨ j = nj := by
  unfold add_job at h
  by_cases hc : store.any (fun x => x.id == nj.id) = true
  · rw [if_pos hc] at h
    rcases List.mem_map.mp h with ⟨x, hx, he⟩
    by_cases hid : (x.id == nj.id) = true
    · right
      rw [← he]
      simp [hid]
    · left
      rw [← he]
      simp only [hid, Bool.false_eq_true, if_false]
      exact hx
  · rw [if_neg hc] at h
    rcases List.mem_append.mp h with h1 | h1
    · exact Or.inl h1
    · right
      simpa using h1

/-- Replacing an existing job id leaves the id multiset untouched. -/
theorem jobIds_add_job_of_contains {store : List SchedJob} {nj : SchedJob}
    (h : store.any (fun x => x.id == nj.id) = true) :
    jobIds (add_job store nj) = jobIds store := by
  unfold add_job jobIds
  rw [if_pos h, List.map_map]
  apply List.map_congr_left
  intro x hx
  by_cases hid : x.id = nj.id
  · simp [Function.comp, hid]
  · simp [Function.comp, hid]

/-- add_job never creates a duplicate job id. -/
theorem nodup_jobIds_add_job {store : List SchedJob} {nj : SchedJob}
    (h : (jobIds store).Nodup) : (jobIds (add_job store nj)).Nodup := by
  by_cases hc : store.any (fun x => x.id == nj.id) = true
  · rw [jobIds_add_job_of_contains hc]
    exact h
  · unfold add_job jobIds
    rw [if_neg hc, List.map_append]
    rw [List.nodup_append]
    refine ⟨h, List.nodup_singleton _, ?_⟩
    intro a ha hb
    rcases List.mem_map.mp ha with ⟨x, hx, he⟩
    have hb2 : a = nj.id := by simpa using hb
    apply hc
    rw [List.any_eq_true]
    exact ⟨x, hx, by rw [he, hb2]; exact beq_self_eq_true nj.id⟩

/-- Searching the replaced store for the new job id finds the new job. -/
theorem find_map_replace_self (store : List SchedJob) (nj : SchedJob)
    (h : store.any (fun x => x.id == nj.id) = true) :
    (store.map (fun j => if j.id == nj.id then nj else j)).find?
      (fun j => j.id == nj.id) = some nj := by
  induction store with
  | nil => cases h
  | cons x rest ih =>
    rw [List.map_cons, List.find?_cons]
    by_cases hid : (x.id == nj.id) = true
    · simp [hid]
    · have hid2 : (x.id == nj.id) = false := by simpa using hid
      rw [List.any_cons, hid2] at h
      simp only [Bool.false_or] at h
      simp only [hid2, Bool.false_eq_true, if_false]
      exact ih h

/-- Replacement by one id does not change search results for other ids. -/
theorem find_map_replace_ne (store : List SchedJob) (nj : SchedJob) {i : String}
    (h : i ≠ nj.id) :
    (store.map (fun j => if j.id == nj.id then nj else j)).find?
        (fun j => j.id == i) =
      store.find? (fun j => j.id == i) := by
  induction store with
  | nil => rfl
  | cons x rest ih =>
    rw [List.map_cons]
    by_cases hid : (x.id == nj.id) = true
    · have hx : x.id = nj.id := by simpa using hid
      have h1 : (nj.id == i) = false := beq_false_of_ne (Ne.symm h)
      have h2 : (x.id == i) = false := by rw [hx]; exact h1
      simp only [hid, if_true]
      rw [List.find?_cons, List.find?_cons, h1, h2]
      exact ih
    · have hid2 : (x.id == nj.id) = false := by simpa using hid
      simp only [hid2, Bool.false_eq_true, if_false]
      rw [List.find?_cons, List.find?_cons]
      cases hpx : (x.id == i)
      · exact ih
      · rfl

/-- Searching past a block of non-matching jobs. -/
theorem find_append_singleton (store : List SchedJob) (nj : SchedJob)
    (p : SchedJob → Bool) (h : ∀ x ∈ store, p x = false) :
    (store ++ [nj]).find? p = [nj].find? p := by
  induction store with
  | nil => rfl
  | cons x rest ih =>
    rw [List.cons_append, List.find?_cons, h x (List.mem_cons_self x rest)]
    exact ih (fun y hy => h y (List.mem_cons_of_mem x hy))

/-- get_job finds the newly added job under its id. -/
theorem findJob_add_job_self (store : List SchedJob) (nj : SchedJob) :
    findJob (add_job store nj) nj.id = some nj := by
  unfold findJob add_job
  by_cases hc : store.any (fun x => x.id == nj.id) = true
  · rw [if_pos hc]
    exact find_map_replace_self store nj hc
  · rw [if_neg hc]
    rw [find_append_singleton]
    · rw [List.find?_cons, beq_self_eq_true nj.id]
    · intro x hx
      exact Bool.eq_false_iff.mpr
        (fun htrue => hc (List.any_eq_true.mpr ⟨x, hx, htrue⟩))

/-- Appending a single non-matching job does not change search results. -/
theorem find_append_singleton_ne (store : List SchedJob) (nj : SchedJob)
    (p : SchedJob → Bool) (h : p nj = false) :
    (store ++ [nj]).find? p = store.find? p := by
  induction store with
  | nil => rw [List.nil_append, List.find?_cons, h, List.find?_nil]
  | cons x rest ih =>
    rw [List.cons_append, List.find?_cons, List.find?_cons]
    cases hpx : p x
    · exact ih
    · rfl

/-- get_job for a different id is unaffected by add_job. -/
theorem findJob_add_job_ne (store : List SchedJob) (nj : SchedJob) {i : String}
    (h : i ≠ nj.id) : findJob (add_job store nj) i = findJob store i := by
  unfold findJob add_job
  by_cases hc : store.any (fun x => x.id == nj.id) = true
  · rw [if_pos hc]
    exact find_map_replace_ne store nj h
  · rw [if_neg hc]
    exact find_append_singleton_ne store nj _
      (beq_false_of_ne (fun hh => h hh.symm))

/-- Unfolding register_wake when a wake expression is present. -/
theorem register_wake_of_some (cronValid : String → Bool) (store : List SchedJob)
    (c : ClusterConfig) {e : String} (hw : c.schedule.lookup "wake_up" = some e) :
    register_wake cronValid store c =
      if cronValid e then
        add_job store
          { id := c.name ++ "_wake_up", name := "Wake up " ++ c.name, trigger := e }
      else store := by
  unfold register_wake
  rw [hw]

/-- Unfolding register_wake when no wake expression is present. -/
theorem register_wake_of_none (cronValid : String → Bool) (store : List SchedJob)
    (c : ClusterConfig) (hw : c.schedule.lookup "wake_up" = none) :
    register_wake cronValid store c = store := by
  unfold register_wake
  rw [hw]

/-- Unfolding register_shutdown when a shutdown expression is present. -/
theorem register_shutdown_of_some (cronValid : String → Bool)
    (store : List SchedJob) (c : ClusterConfig) {e : String}
    (hs : c.schedule.lookup "shutdown" = some e) :
    register_shutdown cronValid store c =
      if cronValid e then
        add_job store
          { id := c.name ++ "_shutdown", name := "Shutdown " ++ c.name, trigger := e }
      else store := by
  unfold register_shutdown
  rw [hs]

/-- Unfolding register_shutdown when no shutdown expression is present. -/
theorem register_shutdown_of_none (cronValid : String → Bool)
    (store : List SchedJob) (c : ClusterConfig)
    (hs : c.schedule.lookup "shutdown" = none) :
    register_shutdown cronValid store c = store := by
  unfold register_shutdown
  rw [hs]

/-- register_wake preserves job-id uniqueness. -/
theorem nodup_register_wake (cronValid : String → Bool) (store : List SchedJob)
    (c : ClusterConfig) (h : (jobIds store).Nodup) :
    (jobIds (register_wake cronValid store c)).Nodup := by
  cases hw : c.schedule.lookup "wake_up" with
  | none =>
    rw [register_wake_of_none cronValid store c hw]
    exact h
  | some e =>
    rw [register_wake_of_some cronValid store c hw]
    by_cases hv : cronValid e = true
    · rw [if_pos hv]
      exact nodup_jobIds_add_job h
    · rw [if_neg hv]
      exact h

/-- register_shutdown preserves job-id uniqueness. -/
theorem nodup_register_shutdown (cronValid : String → Bool) (store : List SchedJob)
    (c : ClusterConfig) (h : (jobIds store).Nodup) :
    (jobIds (register_shutdown cronValid store c)).Nodup := by
  cases hs : c.schedule.lookup "shutdown" with
  | none =>
    rw [register_shutdown_of_none cronValid store c hs]
    exact h
  | some e =>
    rw [register_shutdown_of_some cronValid store c hs]
    by_cases hv : cronValid e = true
    · rw [if_pos hv]
      exact nodup_jobIds_add_job h
    · rw [if_neg hv]
      exact h

/-- Jobs present after register_wake: old jobs or the wake job id. -/
theorem mem_register_wake {cronValid : String → Bool} {store : List SchedJob}
    {c : ClusterConfig} {j : SchedJob} (h : j ∈ register_wake cronValid store c) :
    j ∈ store ∨ j.id = c.name ++ "_wake_up" := by
  cases hw : c.schedule.lookup "wake_up" with
  | none =>
    rw [register_wake_of_none cronValid store c hw] at h
    exact Or.inl h
  | some e =>
    rw [register_wake_of_some cronValid store c hw] at h
    by_cases hv : cronValid e = true
    · rw [if_pos hv] at h
      rcases mem_add_job h with h1 | h1
      · exact Or.inl h1
      · right
        rw [h1]
    · rw [if_neg hv] at h
      exact Or.inl h

/-- Jobs present after register_shutdown: old jobs or the shutdown job
id. -/
theorem mem_register_shutdown {cronValid : String → Bool} {store : List SchedJob}
    {c : ClusterConfig} {j : SchedJob}
    (h : j ∈ register_shutdown cronValid store c) :
    j ∈ store ∨ j.id = c.name ++ "_shutdown" := by
  cases hs : c.schedule.lookup "shutdown" with
  | none =>
    rw [register_shutdown_of_none cronValid store c hs] at h
    exact Or.inl h
  | some e =>
    rw [register_shutdown_of_some cronValid store c hs] at h
    by_cases hv : cronValid e = true
    · rw [if_pos hv] at h
      rcases mem_add_job h with h1 | h1
      · exact Or.inl h1
      · right
        rw [h1]
    · rw [if_neg hv] at h
      exact Or.inl h

/-- After a registered shutdown block, the shutdown job is found under its
id with the registered trigger. -/
theorem find_register_shutdown_self (cronValid : String → Bool)
    (store : List SchedJob) (c : ClusterConfig) (e : String)
    (hs : c.schedule.lookup "shutdown" = some e) (hv : cronValid e = true) :
    findJob (register_shutdown cronValid store c) (c.name ++ "_shutdown") =
      some { id := c.name ++ "_shutdown", name := "Shutdown " ++ c.name
             trigger := e } := by
  rw [register_shutdown_of_some cronValid store c hs, if_pos hv]
  exact findJob_add_job_self store _

/-- The shutdown block does not disturb other job ids. -/
theorem find_register_shutdown_ne (cronValid : String → Bool)
    (store : List SchedJob) (c : ClusterConfig) {i : String}
    (h : i ≠ c.name ++ "_shutdown") :
    findJob (register_shutdown cronValid store c) i = findJob store i := by
  cases hs : c.schedule.lookup "shutdown" with
  | none => rw [register_shutdown_of_none cronValid store c hs]
  | some e =>
    rw [register_shutdown_of_some cronValid store c hs]
    by_cases hv : cronValid e = true
    · rw [if_pos hv]
      exact findJob_add_job_ne store _ h
    · rw [if_neg hv]

/-- After a registered wake block, the wake job is found under its id with
the registered trigger. -/
theorem find_register_wake_self (cronValid : String → Bool)
    (store : List SchedJob) (c : ClusterConfig) (e : String)
    (hw : c.schedule.lookup "wake_up" = some e) (hv : cronValid e = true) :
    findJob (register_wake cronValid store c) (c.name ++ "_wake_up") =
      some { id := c.name ++ "_wake_up", name := "Wake up " ++ c.name
             trigger := e } := by
  rw [register_wake_of_some cronValid store c hw, if_pos hv]
  exact findJob_add_job_self store _

/-- C8 counterexample: the claim derives job ids as cluster name plus
"_wake" or "_shutdown" (kind in the set containing wake and shutdown), but
the code registers the wake job under the id cluster name plus "_wake_up":
for the cluster named "c" the registered ids are "c_wake_up" and
"c_shutdown", and "c_wake_up" matches neither claimed form. -/
theorem claim8_counterexample :
    jobIds (schedule_cluster_job (fun _ => true) [] witness_cluster)
        = ["c_wake_up", "c_shutdown"] ∧
    ¬("c_wake_up" = "c" ++ "_wake" ∨ "c_wake_up" = "c" ++ "_shutdown") := by
  exact ⟨by decide, by decide⟩

/-- C8 amended: each scheduled job id is the cluster name plus "_wake_up"
or "_shutdown"; registering the same cluster's schedule twice never yields
two jobs with the same id; and the second registration's triggers are the
ones found under the wake and shutdown job ids afterwards. -/
theorem claim8_amended (cronValid : String → Bool) (store : List SchedJob)
    (c1 c2 : ClusterConfig) (hname : c1.name = c2.name)
    (hnodup : (jobIds store).Nodup) :
    (jobIds (schedule_cluster_job cronValid
        (schedule_cluster_job cronValid store c1) c2)).Nodup ∧
    (∀ j ∈ schedule_cluster_job cronValid store c2,
        j ∈ store ∨ j.id = c2.name ++ "_wake_up" ∨ j.id = c2.name ++ "_shutdown") ∧
    (∀ e, c2.schedule.lookup "wake_up" = some e → cronValid e = true →
        findJob (schedule_cluster_job cronValid
            (schedule_cluster_job cronValid store c1) c2) (c2.name ++ "_wake_up") =
          some { id := c2.name ++ "_wake_up", name := "Wake up " ++ c2.name
                 trigger := e }) ∧
    (∀ e, c2.schedule.lookup "shutdown" = some e → cronValid e = true →
        findJob (schedule_cluster_job cronValid
            (schedule_cluster_job cronValid store c1) c2) (c2.name ++ "_shutdown") =
          some { id := c2.name ++ "_shutdown", name := "Shutdown " ++ c2.name
                 trigger := e }) := by
  refine ⟨?_, ?_, ?_, ?_⟩
  · exact nodup_register_shutdown _ _ _ (nodup_register_wake _ _ _
      (nodup_register_shutdown _ _ _ (nodup_register_wake _ _ _ hnodup)))
  · intro j hj
    rcases mem_register_shutdown hj with h1 | h1
    · rcases mem_register_wake h1 with h2 | h2
      · exact Or.inl h2
      · exact Or.inr (Or.inl h2)
    · exact Or.inr (Or.inr h1)
  · intro e hw hv
    unfold schedule_cluster_job
    rw [find_register_shutdown_ne cronValid _ c2
      (string_append_right_ne c2.name (by decide))]
    exact find_register_wake_self cronValid _ c2 e hw hv
  · intro e hs hv
    unfold schedule_cluster_job
    exact find_register_shutdown_self cronValid _ c2 e hs hv

/-- C8 witness: registering the cluster "c" twice over the empty store. -/
theorem claim8_witness :
    ("c" : String) = "c" ∧
    (jobIds ([] : List SchedJob)).Nodup ∧
    ((jobIds (schedule_cluster_job (fun _ => true)
        (schedule_cluster_job (fun _ => true) [] witness_cluster)
        witness_cluster)).Nodup ∧
    (∀ j ∈ schedule_cluster_job (fun _ => true) ([] : List SchedJob) witness_cluster,
        j ∈ ([] : List SchedJob) ∨ j.id = "c" ++ "_wake_up"
          ∨ j.id = "c" ++ "_shutdown") ∧
    (∀ e, witness_cluster.schedule.lookup "wake_up" = some e →
        (fun _ : String => true) e = true →
        findJob (schedule_cluster_job (fun _ => true)
            (schedule_cluster_job (fun _ => true) [] witness_cluster)
            witness_cluster) ("c" ++ "_wake_up") =
          some { id := "c" ++ "_wake_up", name := "Wake up " ++ "c"
                 trigger := e }) ∧
    (∀ e, witness_cluster.schedule.lookup "shutdown" = some e →
        (fun _ : String => true) e = true →
        findJob (schedule_cluster_job (fun _ => true)
            (schedule_cluster_job (fun _ => true) [] witness_cluster)
            witness_cluster) ("c" ++ "_shutdown") =
          some { id := "c" ++ "_shutdown", name := "Shutdown " ++ "c"
                 trigger := e })) :=
  ⟨rfl, List.nodup_nil,
   claim8_amended (fun _ => true) [] witness_cluster witness_cluster rfl
     List.nodup_nil⟩

end CloudNap
